import Mathlib

/-!
Shallow embedding of the process-wide logging subsystem implemented in
`src/base/log.cpp` (DDNet): the global logger registry, the formatting entry
point `log_log_impl`, and the sink implementations `CFutureLogger`,
`CLoggerCollection` and `CLoggerAsync`.

Sinks (`ILogger *` values in the C++) are identified by natural numbers
(pointer identity).  Calls a sink receives are recorded as `LogEvent`s.
Fatal assertions (`dbg_assert(false, ...)`, which aborts the process) are
modelled as `Except.error` with the assertion message.
-/

/-- Severity levels (the `LEVEL` enum of `logger.h`): trace < debug < info <
warn < error. -/
inductive LEVEL where
  | trace
  | debug
  | info
  | warn
  | error
deriving DecidableEq, Repr

/-- `LOG_COLOR`: an RGB color with 8-bit components. -/
structure LOG_COLOR where
  r : Nat
  g : Nat
  b : Nat
deriving DecidableEq, Repr

/-- One formatted log record (`CLogMessage` of `logger.h`).  Character
buffers are modelled as `List Char`; the stored lengths mirror the
`m_*Length` fields the C++ code computes with `str_length`. -/
structure CLogMessage where
  m_Level : LEVEL
  m_HaveColor : Bool
  m_Color : LOG_COLOR
  m_aTimestamp : List Char
  m_TimestampLength : Nat
  m_aSystem : List Char
  m_SystemLength : Nat
  m_aLine : List Char
  m_LineMessageOffset : Nat
  m_LineLength : Nat
deriving DecidableEq, Repr

/-- A call observed by a concrete sink: either `Log` with a record or
`GlobalFinish`. -/
inductive LogEvent where
  | log (sink : Nat) (msg : CLogMessage)
  | globalFinish (sink : Nat)
deriving DecidableEq, Repr

/-! ## CFutureLogger (log.cpp lines 380-418)

State: the atomic `m_pLogger` (null until `Set`) and the pending buffer
`m_aPending` guarded by `m_PendingLock`.  The lock makes each operation
atomic, so the embedding is a sequential state machine. -/

structure CFutureLogger where
  m_pLogger : Option Nat
  m_aPending : List CLogMessage
deriving DecidableEq, Repr

/-- A freshly constructed `CFutureLogger`: no logger attached, empty
pending buffer. -/
def CFutureLogger.init : CFutureLogger := ⟨none, []⟩

/-- `CFutureLogger::Set` (log.cpp 380-396): compare-exchange `m_pLogger`
from null; on failure a fatal assertion fires.  On success the pending
records are replayed to the newly attached sink in buffer order, then the
buffer is cleared (and its storage released with `shrink_to_fit`).
Returns the new state and the events delivered to the attached sink. -/
def CFutureLogger.Set (f : CFutureLogger) (sink : Nat) :
    Except String (CFutureLogger × List LogEvent) :=
  match f.m_pLogger with
  | some _ => .error "future logger has already been set and can only be set once"
  | none => .ok (⟨some sink, []⟩, f.m_aPending.map (LogEvent.log sink))

/-- `CFutureLogger::Log` (log.cpp 398-409): if `m_pLogger` is already set,
forward directly to it (the pending buffer is not consulted); otherwise
append the record to the pending buffer under the lock. -/
def CFutureLogger.Log (f : CFutureLogger) (msg : CLogMessage) :
    CFutureLogger × List LogEvent :=
  match f.m_pLogger with
  | some sink => (f, [LogEvent.log sink msg])
  | none => (⟨none, f.m_aPending ++ [msg]⟩, [])

/-- `CFutureLogger::GlobalFinish` (log.cpp 411-418): forward to the
attached sink if present, otherwise a no-op. -/
def CFutureLogger.GlobalFinish (f : CFutureLogger) : List LogEvent :=
  match f.m_pLogger with
  | some sink => [LogEvent.globalFinish sink]
  | none => []

/-- Run a sequence of `Log` calls, collecting all events delivered to
concrete sinks in order. -/
def CFutureLogger.runLogs (f : CFutureLogger) :
    List CLogMessage → CFutureLogger × List LogEvent
  | [] => (f, [])
  | msg :: rest =>
    let step := f.Log msg
    let tail := step.1.runLogs rest
    (tail.1, step.2 ++ tail.2)

theorem CFutureLogger.runLogs_unattached (msgs : List CLogMessage) :
    ∀ p : List CLogMessage,
      (CFutureLogger.mk none p).runLogs msgs = (⟨none, p ++ msgs⟩, []) := by
  induction msgs with
  | nil => intro p; simp [CFutureLogger.runLogs]
  | cons m rest ih =>
    intro p
    simp [CFutureLogger.runLogs, CFutureLogger.Log, ih (p ++ [m])]

theorem CFutureLogger.runLogs_attached (msgs : List CLogMessage)
    (s : Nat) (p : List CLogMessage) :
    (CFutureLogger.mk (some s) p).runLogs msgs =
      (⟨some s, p⟩, msgs.map (LogEvent.log s)) := by
  induction msgs with
  | nil => simp [CFutureLogger.runLogs]
  | cons m rest ih =>
    simp [CFutureLogger.runLogs, CFutureLogger.Log, ih]

/-- C1: deferred sink.  Emitting the records `ks` before `Set sink` delivers
nothing to any concrete sink but accumulates `ks` in the pending buffer;
`Set sink` replays exactly the `ks` records to `sink` in buffered order and
clears the buffer; the records `ms` emitted afterwards are forwarded
directly, so the attached sink observes `ks ++ ms` in order; a second `Set`
is a fatal assertion, both right after the first `Set` and after further
`Log` calls. -/
theorem futureLogger_deferred_replay_and_set_once
    (ks ms : List CLogMessage) (sink sink2 : Nat) :
    (CFutureLogger.init.runLogs ks).2 = [] ∧
    (CFutureLogger.init.runLogs ks).1 = ⟨none, ks⟩ ∧
    (CFutureLogger.mk none ks).Set sink =
      .ok (⟨some sink, []⟩, ks.map (LogEvent.log sink)) ∧
    (CFutureLogger.mk (some sink) []).runLogs ms =
      (⟨some sink, []⟩, ms.map (LogEvent.log sink)) ∧
    ks.map (LogEvent.log sink) ++ ms.map (LogEvent.log sink) =
      (ks ++ ms).map (LogEvent.log sink) ∧
    (CFutureLogger.mk (some sink) []).Set sink2 =
      .error "future logger has already been set and can only be set once" ∧
    ((CFutureLogger.mk (some sink) []).runLogs ms).1.Set sink2 =
      .error "future logger has already been set and can only be set once" := by
  refine ⟨?_, ?_, ?_, ?_, ?_, ?_, ?_⟩
  · rw [CFutureLogger.init, CFutureLogger.runLogs_unattached]
  · rw [CFutureLogger.init, CFutureLogger.runLogs_unattached]; simp
  · simp [CFutureLogger.Set]
  · exact CFutureLogger.runLogs_attached ms sink []
  · simp
  · simp [CFutureLogger.Set]
  · rw [CFutureLogger.runLogs_attached]
    simp [CFutureLogger.Set]

/-! ## Global registry (log.cpp lines 18-64)

Process-wide state: the write-once atomic `global_logger` and, registered by
`log_set_global_logger`, the `atexit` hook invoking
`log_global_logger_finish`.  The thread-locals `scope_logger` and
`in_logger` are modelled per call as explicit parameters. -/

structure GlobalRegistry where
  global_logger : Option Nat
  atexit_finish_registered : Bool
deriving DecidableEq, Repr

/-- Process start: `global_logger = nullptr`, no atexit hook registered. -/
def GlobalRegistry.init : GlobalRegistry := ⟨none, false⟩

/-- `log_set_global_logger` (log.cpp 22-30): compare-exchange
`global_logger` from null to `logger`; a failed exchange is a fatal
assertion (which aborts before reaching the `atexit` call).  On success the
`atexit(log_global_logger_finish)` hook is registered. -/
def log_set_global_logger (st : GlobalRegistry) (logger : Nat) :
    Except String GlobalRegistry :=
  match st.global_logger with
  | some _ => .error "global logger has already been set and can only be set once"
  | none => .ok ⟨some logger, true⟩

/-- `log_global_logger_finish` (log.cpp 32-35): dereferences the loaded
`global_logger` with no null check and calls its `GlobalFinish`.  A null
pointer is undefined behaviour, modelled as an error. -/
def log_global_logger_finish (global : Option Nat) : Except String LogEvent :=
  match global with
  | some l => .ok (LogEvent.globalFinish l)
  | none => .error "null pointer dereference"

/-- `log_get_scope_logger` (log.cpp 48-55): if the thread-local
`scope_logger` is null, cache the current `global_logger` into it; return
the (possibly updated) thread-local.  The returned value is also the new
cached `scope_logger`. -/
def log_get_scope_logger (global scope : Option Nat) : Option Nat :=
  match scope with
  | some s => some s
  | none => global

/-- `log_set_scope_logger` (log.cpp 57-64): store `logger` into the
thread-local `scope_logger`; if that is null, fall back to the current
`global_logger`.  Returns the new thread-local value. -/
def log_set_scope_logger (global logger : Option Nat) : Option Nat :=
  match logger with
  | some l => some l
  | none => global

/-! ## The formatting entry point `log_log_impl` (log.cpp lines 66-114) -/

/-- The thread-local state a call to `log_log_impl` reads and writes: the
reentrancy flag `in_logger` and the cached `scope_logger`. -/
structure ThreadState where
  in_logger : Bool
  scope_logger : Option Nat
deriving DecidableEq, Repr

/-- Modelled from the spec: the capacities of the fixed-size character
buffers `m_aTimestamp`, `m_aSystem` and `m_aLine` of `CLogMessage` are
declared in `logger.h`, which is not among the sources; the spec states
only that the subsystem tag and the rendered line are "truncated to a fixed
maximum length".  Each capacity is the buffer size in bytes, one of which
is reserved for the NUL terminator. -/
structure LogCaps where
  tsCap : Nat
  sysCap : Nat
  lineCap : Nat
deriving DecidableEq, Repr

/-- Modelled from the spec: `str_copy` (system.cpp, not among the sources)
copies a string into a bounded buffer, silently truncating it to the buffer
capacity; at most `cap - 1` characters are kept, one byte being reserved
for the NUL terminator. -/
def str_copy (s : List Char) (cap : Nat) : List Char := s.take (cap - 1)

/-- The inputs of one `log_log_impl` call.  `msg` is the full printf
rendering of `fmt` with `args` (vsnprintf truncation is applied by
`mkLogMessage`), and `timestamp` is what `str_timestamp_format` renders for
the current wall-clock time (the clock is an input of the model). -/
structure LogArgs where
  level : LEVEL
  have_color : Bool
  color : LOG_COLOR
  timestamp : List Char
  sys : List Char
  msg : List Char
deriving DecidableEq, Repr

/-- Record construction, log.cpp lines 84-111: copy the (truncated)
timestamp and subsystem tag, render the `"[timestamp][system]: "` header
into `m_aLine` with `str_format` (snprintf semantics: truncated to
`lineCap - 1`), then render the message after the header with `vsnprintf`
into the remaining `lineCap - offset` bytes (so at most
`lineCap - offset - 1` characters). -/
def mkLogMessage (caps : LogCaps) (a : LogArgs) : CLogMessage :=
  let aTimestamp := str_copy a.timestamp caps.tsCap
  let aSystem := str_copy a.sys caps.sysCap
  let header :=
    ( "[".data ++ aTimestamp ++ "][".data ++ aSystem ++ "]: ".data).take
      (caps.lineCap - 1)
  let offset := header.length
  let message := a.msg.take (caps.lineCap - offset - 1)
  let line := header ++ message
  { m_Level := a.level
    m_HaveColor := a.have_color
    m_Color := a.color
    m_aTimestamp := aTimestamp
    m_TimestampLength := aTimestamp.length
    m_aSystem := aSystem
    m_SystemLength := aSystem.length
    m_aLine := line
    m_LineMessageOffset := offset
    m_LineLength := line.length }

/-- `log_log_impl` (log.cpp 66-114).  If `in_logger` is already set the
call returns at once: no record is constructed and no sink is called.
Otherwise `in_logger` is set, the scope logger is resolved (caching the
global into the thread-local if unset); if still null the flag is cleared
and the call returns with no record.  Otherwise the record is built and
delivered to the resolved sink, then the flag is cleared.  Returns the new
thread state and the delivery (sink, record) if one happened. -/
def log_log_impl (caps : LogCaps) (global : Option Nat) (ts : ThreadState)
    (a : LogArgs) : ThreadState × Option (Nat × CLogMessage) :=
  if ts.in_logger then
    (ts, none)
  else
    let scope :=
      match ts.scope_logger with
      | some s => some s
      | none => global
    match scope with
    | none => (⟨false, none⟩, none)
    | some sink => (⟨false, some sink⟩, some (sink, mkLogMessage caps a))

/-- The thread state in effect while the resolved sink's `Log` runs
(log.cpp line 112): `in_logger` is still true and `scope_logger` caches the
resolved sink. -/
def log_during_sink (sink : Nat) : ThreadState := ⟨true, some sink⟩

/-- C2: global registry set-once contract.  From process start, the first
`log_set_global_logger` publishes the logger (and registers the atexit
hook); any second call, with the same or any other argument, is a fatal
assertion and replaces nothing; after the successful set, a thread with no
scope override (`scope_logger` null) resolves exactly the published
instance via `log_get_scope_logger`, while a thread with an override keeps
its override. -/
theorem global_logger_set_once (l : Nat) :
    log_set_global_logger GlobalRegistry.init l = .ok ⟨some l, true⟩ ∧
    (∀ m : Nat, log_set_global_logger ⟨some l, true⟩ m =
      .error "global logger has already been set and can only be set once") ∧
    log_get_scope_logger (some l) none = some l ∧
    (∀ s : Nat, log_get_scope_logger (some l) (some s) = some s) := by
  refine ⟨rfl, fun m => rfl, rfl, fun s => rfl⟩

/-- C3: reentrancy guard.  Any call made while `in_logger` is true on the
current thread — in particular a call made from inside the resolved sink's
`Log`, where the thread state is `log_during_sink sink` — returns
immediately with the thread state unchanged and delivers no record to any
sink, whatever the global logger and the arguments; the outer call itself
(started with `in_logger` false and a resolved sink) still constructs its
record and delivers it to that sink, ending with `in_logger` cleared. -/
theorem log_log_impl_reentrancy_guard (caps caps2 : LogCaps)
    (g g2 : Option Nat) (a a2 : LogArgs) (sink : Nat) :
    (∀ sc : Option Nat,
      log_log_impl caps2 g2 ⟨true, sc⟩ a2 = (⟨true, sc⟩, none)) ∧
    log_log_impl caps2 g2 (log_during_sink sink) a2 =
      (log_during_sink sink, none) ∧
    log_log_impl caps g ⟨false, some sink⟩ a =
      (⟨false, some sink⟩, some (sink, mkLogMessage caps a)) := by
  refine ⟨fun sc => rfl, rfl, rfl⟩

/-- C4: effective-sink resolution and absent-sink no-op.  With `in_logger`
clear: a set scope logger receives the record (never the global one); with
no scope logger the global logger receives it and is cached into the
thread-local; with neither set the call returns normally, delivers nothing
and constructs no record. -/
theorem log_log_impl_effective_sink_resolution (caps : LogCaps)
    (a : LogArgs) :
    (∀ s : Nat, ∀ g : Option Nat,
      log_log_impl caps g ⟨false, some s⟩ a =
        (⟨false, some s⟩, some (s, mkLogMessage caps a))) ∧
    (∀ gl : Nat,
      log_log_impl caps (some gl) ⟨false, none⟩ a =
        (⟨false, some gl⟩, some (gl, mkLogMessage caps a))) ∧
    log_log_impl caps none ⟨false, none⟩ a = (⟨false, none⟩, none) := by
  refine ⟨fun s g => rfl, fun gl => rfl, rfl⟩

/-- C9: the `in_logger` flag never ends up stuck.  `log_log_impl` leaves
the flag exactly as it found it: a call that starts with `in_logger` false
ends with it false on every exit path — the reentrant early return (flag
untouched), the no-sink early return, and the normal path after the sink's
`Log` — so the thread can always log again after a completed call. -/
theorem log_log_impl_in_logger_restored (caps : LogCaps)
    (g : Option Nat) (a : LogArgs) :
    (∀ ts : ThreadState,
      (log_log_impl caps g ts a).1.in_logger = ts.in_logger) ∧
    (∀ sc : Option Nat,
      (log_log_impl caps g ⟨false, sc⟩ a).1.in_logger = false) ∧
    (log_log_impl caps none ⟨false, none⟩ a).1.in_logger = false := by
  refine ⟨?_, ?_, rfl⟩
  · intro ts
    rcases ts with ⟨flag, sc⟩
    cases flag <;> cases sc <;> cases g <;> rfl
  · intro sc
    cases sc <;> cases g <;> rfl

/-- C8: silent truncation.  For every call: the record's system field holds
at most `sysCap - 1` characters (the tag is truncated by `str_copy`), the
rendered line holds at most `lineCap - 1` characters (header truncated by
`str_format`, message by `vsnprintf`), so neither fixed buffer is overrun;
`m_LineLength` matches the stored line; the truncated record is still
delivered to the resolved sink (truncation never drops a record or raises
an error); and the thread state after the call is independent of the
arguments, so subsequent records are unaffected. -/
theorem log_log_impl_silent_truncation (caps : LogCaps) (g : Option Nat)
    (a : LogArgs) (sink : Nat) :
    (mkLogMessage caps a).m_aSystem.length ≤ caps.sysCap - 1 ∧
    (mkLogMessage caps a).m_aLine.length ≤ caps.lineCap - 1 ∧
    (mkLogMessage caps a).m_LineLength = (mkLogMessage caps a).m_aLine.length ∧
    log_log_impl caps g ⟨false, some sink⟩ a =
      (⟨false, some sink⟩, some (sink, mkLogMessage caps a)) ∧
    (∀ a2 : LogArgs,
      log_log_impl caps g (log_log_impl caps g ⟨false, some sink⟩ a).1 a2 =
        (⟨false, some sink⟩, some (sink, mkLogMessage caps a2))) := by
  refine ⟨?_, ?_, rfl, rfl, fun a2 => rfl⟩
  · simp [mkLogMessage, str_copy]
  · simp only [mkLogMessage, str_copy, List.length_append, List.length_take]
    omega

/-- C10: `log_global_logger_finish` has the unstated precondition that
`log_set_global_logger` succeeded.  After any successful set of `l`: the
registry holds exactly `some l` with the atexit hook registered, no later
set can change the pointer (it is fatal), and the hook's unchecked
dereference is safe, invoking `GlobalFinish` on `l`.  Without the
precondition the dereference is a null-pointer dereference; at process
start no hook is registered, so the hook only ever runs after a successful
set. -/
theorem log_global_finish_requires_prior_set (st st2 : GlobalRegistry)
    (l : Nat) (h : log_set_global_logger st l = .ok st2) :
    st2 = ⟨some l, true⟩ ∧
    (∀ m : Nat, log_set_global_logger st2 m =
      .error "global logger has already been set and can only be set once") ∧
    log_global_logger_finish st2.global_logger =
      .ok (LogEvent.globalFinish l) ∧
    log_global_logger_finish GlobalRegistry.init.global_logger =
      .error "null pointer dereference" ∧
    GlobalRegistry.init.atexit_finish_registered = false := by
  have hst2 : st2 = ⟨some l, true⟩ := by
    rcases st with ⟨g, reg⟩
    cases g with
    | none =>
      simpa [log_set_global_logger] using h.symm
    | some x => simp [log_set_global_logger] at h
  subst hst2
  exact ⟨rfl, fun m => rfl, rfl, rfl, rfl⟩

/-- C10 witness: a concrete successful set, from the initial registry with
logger 7, after which the finish hook's dereference is safe. -/
theorem log_global_finish_requires_prior_set_witness :
    ((GlobalRegistry.mk (some 7) true) = ⟨some 7, true⟩ ∧
    (∀ m : Nat, log_set_global_logger ⟨some 7, true⟩ m =
      .error "global logger has already been set and can only be set once") ∧
    log_global_logger_finish (GlobalRegistry.mk (some 7) true).global_logger =
      .ok (LogEvent.globalFinish 7) ∧
    log_global_logger_finish GlobalRegistry.init.global_logger =
      .error "null pointer dereference" ∧
    GlobalRegistry.init.atexit_finish_registered = false) :=
  log_global_finish_requires_prior_set GlobalRegistry.init ⟨some 7, true⟩ 7 rfl

/-! ## CLoggerCollection (log.cpp lines 173-196)

The collection holds `m_apLoggers`, its children in registration order;
`Log` and `GlobalFinish` each iterate over the vector front to back. -/

/-- `CLoggerCollection::Log` (log.cpp 182-188): call each child's `Log`
with the record, in registration order.  Returns the sequence of calls the
children observe. -/
def CLoggerCollection.Log (m_apLoggers : List Nat) (msg : CLogMessage) :
    List LogEvent :=
  m_apLoggers.map (fun pLogger => LogEvent.log pLogger msg)

/-- `CLoggerCollection::GlobalFinish` (log.cpp 189-195): call each child's
`GlobalFinish`, in registration order. -/
def CLoggerCollection.GlobalFinish (m_apLoggers : List Nat) : List LogEvent :=
  m_apLoggers.map LogEvent.globalFinish

theorem CLoggerCollection.count_log (children : List Nat)
    (msg : CLogMessage) (c : Nat) :
    (CLoggerCollection.Log children msg).count (LogEvent.log c msg) =
      children.count c := by
  have hinj : Function.Injective (fun pLogger => LogEvent.log pLogger msg) := by
    intro a b hab
    injection hab
  exact List.count_map_of_injective children _ hinj c

theorem CLoggerCollection.count_finish (children : List Nat) (c : Nat) :
    (CLoggerCollection.GlobalFinish children).count (LogEvent.globalFinish c) =
      children.count c := by
  have hinj : Function.Injective LogEvent.globalFinish := by
    intro a b hab
    injection hab
  exact List.count_map_of_injective children _ hinj c

/-- C5: collection broadcast.  One `Log` call on a collection over
`children` produces exactly one call per child: the i-th call observed is
`Log` on the i-th registered child (registration order), the number of
calls equals the number of children, and each child receives the record as
often as it is registered (exactly once when registered once).  The same
holds for `GlobalFinish`. -/
theorem loggerCollection_broadcast (children : List Nat)
    (msg : CLogMessage) :
    (CLoggerCollection.Log children msg).length = children.length ∧
    (∀ i : Nat, (CLoggerCollection.Log children msg)[i]? =
      (children[i]?).map (fun c => LogEvent.log c msg)) ∧
    (∀ c : Nat, (CLoggerCollection.Log children msg).count
      (LogEvent.log c msg) = children.count c) ∧
    (CLoggerCollection.GlobalFinish children).length = children.length ∧
    (∀ i : Nat, (CLoggerCollection.GlobalFinish children)[i]? =
      (children[i]?).map LogEvent.globalFinish) ∧
    (∀ c : Nat, (CLoggerCollection.GlobalFinish children).count
      (LogEvent.globalFinish c) = children.count c) := by
  refine ⟨?_, ?_, ?_, ?_, ?_, ?_⟩
  · simp [CLoggerCollection.Log]
  · intro i
    simp [CLoggerCollection.Log, List.getElem?_map]
  · exact CLoggerCollection.count_log children msg
  · simp [CLoggerCollection.GlobalFinish]
  · intro i
    simp [CLoggerCollection.GlobalFinish, List.getElem?_map]
  · exact CLoggerCollection.count_finish children

/-! ## CLoggerAsync (log.cpp lines 203-258)

The sink owns an `ASYNCIO` handle.  The `aio_*` layer (system.cpp) is not
among the sources; it is modelled from the spec: `emit` appends bytes to an
internal write queue under a lock and returns, a dedicated worker drains
the queue to the backing stream, and `aio_wait` blocks until everything
queued has been drained. -/

/-- Modelled from the spec: the state of one `ASYNCIO` handle — the bytes
queued but not yet drained by the worker, the bytes the worker already
wrote to the backing stream, and whether the stream was closed. -/
structure AsyncIoState where
  queue : List Char
  written : List Char
  closed : Bool
deriving DecidableEq, Repr

/-- Modelled from the spec: `aio_new(File)` starts with an empty queue and
nothing written. -/
def AsyncIoState.init : AsyncIoState := ⟨[], [], false⟩

/-- Modelled from the spec: `aio_write_unlocked` appends the bytes to the
in-memory write queue (caller holds the aio lock). -/
def aio_write_unlocked (aio : AsyncIoState) (bytes : List Char) :
    AsyncIoState :=
  { aio with queue := aio.queue ++ bytes }

/-- Modelled from the spec: `aio_write_newline_unlocked` queues one newline
byte. -/
def aio_write_newline_unlocked (aio : AsyncIoState) : AsyncIoState :=
  aio_write_unlocked aio [Char.ofNat 10]

/-- Modelled from the spec: `aio_close` closes the underlying stream. -/
def aio_close (aio : AsyncIoState) : AsyncIoState :=
  { aio with closed := true }

/-- Modelled from the spec: `aio_wait` blocks until the worker has drained
all queued bytes to the backing stream; afterwards the queue is empty and
everything that was queued has been written, in queue order. -/
def aio_wait (aio : AsyncIoState) : AsyncIoState :=
  { queue := [], written := aio.written ++ aio.queue, closed := aio.closed }

/-- log.cpp 225-229: `str_format` of `"\x1b[38;2;%d;%d;%dm"` with the
record's RGB components into the 32-byte `aAnsi` buffer (snprintf
semantics: at most 31 characters kept). -/
def ansi_truecolor_seq (c : LOG_COLOR) : List Char :=
  ( "\x1b[38;2;".data ++ (Nat.repr c.r).data ++ ";".data ++
    (Nat.repr c.g).data ++ ";".data ++ (Nat.repr c.b).data ++
    "m".data).take 31

/-- `CLoggerAsync::Log` (log.cpp 216-240): under the aio lock, when ANSI
truecolor is enabled queue the escape sequence (the 24-bit sequence when
the record has a color, the default-foreground escape `ESC[39m` copied via
`str_copy` otherwise), then queue `m_LineLength` bytes of `m_aLine`, then a
newline, and unlock. -/
def CLoggerAsync.Log (m_AnsiTruecolor : Bool) (aio : AsyncIoState)
    (msg : CLogMessage) : AsyncIoState :=
  let aio1 :=
    if m_AnsiTruecolor then
      let aAnsi :=
        if msg.m_HaveColor then ansi_truecolor_seq msg.m_Color
        else str_copy "\x1b[39m".data 32
      aio_write_unlocked aio aAnsi
    else
      aio
  let aio2 := aio_write_unlocked aio1 (msg.m_aLine.take msg.m_LineLength)
  aio_write_newline_unlocked aio2

/-- `CLoggerAsync::GlobalFinish` (log.cpp 250-257): close the stream when
`m_Close` is set, then wait for the worker to drain the queue.  The
destructor (241-249) performs the same close-and-wait before freeing. -/
def CLoggerAsync.GlobalFinish (m_Close : Bool) (aio : AsyncIoState) :
    AsyncIoState :=
  aio_wait (if m_Close then aio_close aio else aio)

/-- The escape bytes one `Log` call queues before the line: none when ANSI
truecolor is disabled; with it enabled, the record's 24-bit color sequence
when the record has a color and the default-foreground escape otherwise. -/
def ansiEscapeBytes (m_AnsiTruecolor : Bool) (msg : CLogMessage) :
    List Char :=
  if m_AnsiTruecolor then
    if msg.m_HaveColor then ansi_truecolor_seq msg.m_Color
    else str_copy "\x1b[39m".data 32
  else
    []

/-- The full byte block one `Log` call queues for a record. -/
def CLoggerAsync.emitBytes (m_AnsiTruecolor : Bool) (msg : CLogMessage) :
    List Char :=
  ansiEscapeBytes m_AnsiTruecolor msg ++
    msg.m_aLine.take msg.m_LineLength ++ [Char.ofNat 10]

theorem CLoggerAsync.Log_queue_append (m_AnsiTruecolor : Bool)
    (aio : AsyncIoState) (msg : CLogMessage) :
    CLoggerAsync.Log m_AnsiTruecolor aio msg =
      { aio with queue := aio.queue ++
          CLoggerAsync.emitBytes m_AnsiTruecolor msg } := by
  cases m_AnsiTruecolor <;>
    simp [CLoggerAsync.Log, CLoggerAsync.emitBytes, ansiEscapeBytes,
      aio_write_unlocked, aio_write_newline_unlocked]

/-- A concrete record carrying no color (`m_HaveColor` false, color field
zeroed as the `log_log` entry points do), rendered line "x". -/
def msgNoColor : CLogMessage :=
  { m_Level := LEVEL.info
    m_HaveColor := false
    m_Color := ⟨0, 0, 0⟩
    m_aTimestamp := []
    m_TimestampLength := 0
    m_aSystem := []
    m_SystemLength := 0
    m_aLine := "x".data
    m_LineMessageOffset := 0
    m_LineLength := 1 }

/-- C6 counterexample: with ANSI truecolor enabled, a record without a
color still gets escape bytes queued before its line — the
default-foreground escape `ESC[39m` — which is neither "no escape prefix"
nor the 24-bit truecolor sequence derived from the record's color field,
so the emitted block is not of the form the claim describes. -/
theorem asyncLogger_truecolor_claim_counterexample :
    (CLoggerAsync.Log true AsyncIoState.init msgNoColor).queue ≠
      msgNoColor.m_aLine.take msgNoColor.m_LineLength ++ [Char.ofNat 10] ∧
    (CLoggerAsync.Log true AsyncIoState.init msgNoColor).queue ≠
      ansi_truecolor_seq msgNoColor.m_Color ++
        msgNoColor.m_aLine.take msgNoColor.m_LineLength ++ [Char.ofNat 10] ∧
    (CLoggerAsync.Log true AsyncIoState.init msgNoColor).queue =
      str_copy "\x1b[39m".data 32 ++
        msgNoColor.m_aLine.take msgNoColor.m_LineLength ++ [Char.ofNat 10] := by
  refine ⟨?_, ?_, ?_⟩ <;> decide

/-- C6 (amended): each `Log` call on `CLoggerAsync` appends to the write
queue, as one contiguous unit, an escape prefix — present exactly when ANSI
truecolor is enabled: the 24-bit truecolor sequence derived from the
record's color when the record carries a color, the default-foreground
escape `ESC[39m` otherwise — then exactly the record's `m_LineLength`
rendered line bytes, then one newline; nothing is drained to the stream by
the call itself, and with ANSI truecolor disabled no escape bytes are ever
written. -/
theorem asyncLogger_emit_byte_layout (m_AnsiTruecolor : Bool)
    (aio : AsyncIoState) (msg : CLogMessage) :
    (CLoggerAsync.Log m_AnsiTruecolor aio msg).queue =
      aio.queue ++ (ansiEscapeBytes m_AnsiTruecolor msg ++
        msg.m_aLine.take msg.m_LineLength ++ [Char.ofNat 10]) ∧
    (CLoggerAsync.Log m_AnsiTruecolor aio msg).written = aio.written ∧
    (CLoggerAsync.Log m_AnsiTruecolor aio msg).closed = aio.closed ∧
    ansiEscapeBytes false msg = [] ∧
    ansiEscapeBytes true msg =
      (if msg.m_HaveColor then ansi_truecolor_seq msg.m_Color
       else str_copy "\x1b[39m".data 32) := by
  rw [CLoggerAsync.Log_queue_append]
  refine ⟨?_, rfl, rfl, rfl, rfl⟩
  simp [CLoggerAsync.emitBytes]

/-- Fold a sequence of `Log` calls over one `CLoggerAsync` instance.  The
aio lock serializes concurrent callers, so any concurrent execution is one
such sequence (an interleaving of the per-thread emit sequences); the
first component of each event names the emitting thread. -/
def CLoggerAsync.runEmits (m_AnsiTruecolor : Bool) (aio : AsyncIoState) :
    List (Nat × CLogMessage) → AsyncIoState
  | [] => aio
  | e :: rest =>
    CLoggerAsync.runEmits m_AnsiTruecolor
      (CLoggerAsync.Log m_AnsiTruecolor aio e.2) rest

theorem CLoggerAsync.runEmits_state (m_AnsiTruecolor : Bool)
    (events : List (Nat × CLogMessage)) :
    ∀ aio : AsyncIoState,
      CLoggerAsync.runEmits m_AnsiTruecolor aio events =
        { aio with queue := aio.queue ++
            (events.map
              (fun e => CLoggerAsync.emitBytes m_AnsiTruecolor e.2)).flatten } := by
  induction events with
  | nil => intro aio; simp [CLoggerAsync.runEmits]
  | cons e rest ih =>
    intro aio
    rw [CLoggerAsync.runEmits, ih, CLoggerAsync.Log_queue_append]
    simp

/-- C7: async drain on finish.  For any interleaved sequence of emits
(`events`, each tagged with its thread) against one `CLoggerAsync`
instance, after `GlobalFinish` (the destructor performs the same
close-and-wait) the backing stream holds exactly the byte blocks of those
emits, one block per emit in interleaving order — no line lost or
duplicated — the queue is fully drained, and each thread's own blocks form
a subsequence of the stream in that thread's submission order. -/
theorem asyncLogger_drain_on_finish (m_AnsiTruecolor m_Close : Bool)
    (events : List (Nat × CLogMessage)) :
    (CLoggerAsync.GlobalFinish m_Close
        (CLoggerAsync.runEmits m_AnsiTruecolor AsyncIoState.init
          events)).written =
      (events.map (fun e => CLoggerAsync.emitBytes m_AnsiTruecolor e.2)).flatten ∧
    (CLoggerAsync.GlobalFinish m_Close
        (CLoggerAsync.runEmits m_AnsiTruecolor AsyncIoState.init
          events)).queue = [] ∧
    (∀ t : Nat,
      List.Sublist
        ((events.filter (fun e => e.1 == t)).map
          (fun e => CLoggerAsync.emitBytes m_AnsiTruecolor e.2))
        (events.map (fun e => CLoggerAsync.emitBytes m_AnsiTruecolor e.2))) := by
  rw [CLoggerAsync.runEmits_state]
  refine ⟨?_, ?_, ?_⟩
  · cases m_Close <;>
      simp [CLoggerAsync.GlobalFinish, aio_wait, aio_close, AsyncIoState.init]
  · cases m_Close <;>
      simp [CLoggerAsync.GlobalFinish, aio_wait, aio_close, AsyncIoState.init]
  · intro t
    exact List.Sublist.map _ (List.filter_sublist events)
